import Mathlib

/-!
Shallow embedding of the Windows tunnel bring-up core of the repository:

* `src/talpid-core/src/tunnel/windows.rs` — socket-address conversion between
  `SocketAddr` and the Windows `SOCKADDR_INET` union, and the
  `wait_for_interfaces` readiness wait built on `NotifyIpInterfaceChange`.
* `src/talpid-core/src/tunnel/wireguard/wireguard_nt.rs` — the process-wide
  cached loader for `wireguard.dll`, the `WgNtAdapter` owning wrapper around a
  native adapter handle, and `WgNtTunnel::start_tunnel`.

Machine integers are modelled as `Nat` with explicit byte arithmetic where the
code performs byte-order conversions.  External OS and driver calls are
modelled as oracle parameters; the sequence of externally visible calls is
returned as an explicit trace where a claim is about call ordering.
-/

namespace TunnelWindows

/-- `AF_INET` (winapi `ws2def`): the IPv4 address-family discriminant, 2. -/
def AF_INET : Nat := 2

/-- `AF_INET6` (winapi `ws2def`): the IPv6 address-family discriminant, 23. -/
def AF_INET6 : Nat := 23

/-- `AF_UNSPEC` (winapi `ws2def`): the "any family" discriminant, 0. -/
def AF_UNSPEC : Nat := 0

/-- `ERROR_NOT_FOUND` (winapi `winerror`), 1168. -/
def ERROR_NOT_FOUND : Nat := 1168

/-- `MibAddInstance` (winapi `netioapi`): the "instance added" value of
`MIB_NOTIFICATION_TYPE`, 1. -/
def MibAddInstance : Nat := 1

/-- `std::net::Ipv4Addr`: four octets `o0.o1.o2.o3`, most significant first. -/
structure Ipv4Addr where
  o0 : Nat
  o1 : Nat
  o2 : Nat
  o3 : Nat
deriving DecidableEq

/-- `std::net::Ipv6Addr`, modelled by its sixteen octets (`Ipv6Addr::octets`,
most significant first).  `Ipv6Addr::from` on a byte array is the inverse of
`octets`, so the byte list itself is the faithful model. -/
structure Ipv6Addr where
  octets : List Nat
deriving DecidableEq

/-- `winapi IN_ADDR`: four bytes of memory holding `S_un.S_addr` (a `u32`
stored little-endian on every Windows target), in memory order. -/
structure IN_ADDR where
  b0 : Nat
  b1 : Nat
  b2 : Nat
  b3 : Nat
deriving DecidableEq

/-- `winapi IN6_ADDR`: sixteen bytes of memory (`u.Byte`), in memory order. -/
structure IN6_ADDR where
  bytes : List Nat
deriving DecidableEq

/-- Reading `IN_ADDR.S_un.S_addr` as the `u32` it is: little-endian assembly
of the four memory bytes. -/
def IN_ADDR.s_addr (x : IN_ADDR) : Nat :=
  x.b0 + 256 * x.b1 + 65536 * x.b2 + 16777216 * x.b3

/-- `u16::to_be` on a little-endian host: swap the two bytes.  The argument is
a `u16` value (`< 2 ^ 16`). -/
def u16_to_be (p : Nat) : Nat :=
  p % 256 * 256 + p / 256 % 256

/-- `u16::from_be` on a little-endian host: the same byte swap. -/
def u16_from_be (p : Nat) : Nat :=
  p % 256 * 256 + p / 256 % 256

/-- `u32::to_be` on a little-endian host: reverse the four bytes. -/
def u32_to_be (n : Nat) : Nat :=
  n % 256 * 16777216 + n / 256 % 256 * 65536 + n / 65536 % 256 * 256
    + n / 16777216 % 256

/-- `Ipv4Addr::from (n : u32)`: octets are the big-endian bytes of `n`. -/
def Ipv4Addr.ofU32 (n : Nat) : Ipv4Addr :=
  ⟨n / 16777216 % 256, n / 65536 % 256, n / 256 % 256, n % 256⟩

/-- `inaddr_from_ipaddr` (windows.rs): `ptr::copy_nonoverlapping` of
`addr.octets()` into the memory of `S_un.S_addr` — the four octets become the
four memory bytes in order. -/
def inaddr_from_ipaddr (addr : Ipv4Addr) : IN_ADDR :=
  ⟨addr.o0, addr.o1, addr.o2, addr.o3⟩

/-- `in6addr_from_ipaddr` (windows.rs): `ptr::copy_nonoverlapping` of
`addr.octets()` into `u.Byte` — the sixteen octets become the sixteen memory
bytes in order. -/
def in6addr_from_ipaddr (addr : Ipv6Addr) : IN6_ADDR :=
  ⟨addr.octets⟩

/-- `ipaddr_from_inaddr` (windows.rs):
`Ipv4Addr::from((*addr.S_un.S_addr()).to_be())`. -/
def ipaddr_from_inaddr (addr : IN_ADDR) : Ipv4Addr :=
  Ipv4Addr.ofU32 (u32_to_be addr.s_addr)

/-- `ipaddr_from_in6addr` (windows.rs): `Ipv6Addr::from(*addr.u.Byte())`. -/
def ipaddr_from_in6addr (addr : IN6_ADDR) : Ipv6Addr :=
  ⟨addr.bytes⟩

/-- `std::net::SocketAddr`: either a `SocketAddrV4` (ip, port) or a
`SocketAddrV6` (ip, port, flowinfo, scope_id), with the payload fields of the
two carrier structs inlined into the constructors. -/
inductive SocketAddr where
  | V4 (ip : Ipv4Addr) (port : Nat)
  | V6 (ip : Ipv6Addr) (port : Nat) (flowinfo : Nat) (scope_id : Nat)
deriving DecidableEq

/-- `Error` (windows.rs): `UnknownAddressFamily(i32)`, produced when decoding
a `SOCKADDR_INET` whose family discriminant is neither `AF_INET` nor
`AF_INET6`.  The `i32` value of a `u16` family is the family value itself. -/
inductive Error where
  | UnknownAddressFamily (family : Nat)
deriving DecidableEq

/-- `winapi SOCKADDR_INET`: a union of `SOCKADDR_IN` and `SOCKADDR_IN6` over
one block of memory.  `si_family`, `sin_family` and `sin6_family` alias the
same two bytes, modelled as the single field `si_family`; the v4 and v6
payload fields that the code actually reads and writes are modelled as
separate fields (the code only ever reads the view it previously wrote, so
their physical overlap is never observable).  Ports are stored in network
byte order, exactly as the code stores them. -/
structure SOCKADDR_INET where
  si_family : Nat
  sin_port : Nat
  sin_addr : IN_ADDR
  sin6_port : Nat
  sin6_addr : IN6_ADDR
  sin6_flowinfo : Nat
  sin6_scope_id : Nat
deriving DecidableEq

/-- `mem::zeroed::<SOCKADDR_INET>()`: all bytes zero. -/
def SOCKADDR_INET.zeroed : SOCKADDR_INET :=
  ⟨0, 0, ⟨0, 0, 0, 0⟩, 0, ⟨List.replicate 16 0⟩, 0, 0⟩

/-- `inet_sockaddr_from_socketaddr` (windows.rs).  Starts from zeroed memory;
for V4 writes `si_family`/`sin_family` (aliased, one model field),
`sin_port = port.to_be()` and `sin_addr`; for V6 writes the family,
`sin6_port = port.to_be()`, `sin6_addr`, `sin6_flowinfo` and
`sin6_scope_id`. -/
def inet_sockaddr_from_socketaddr : SocketAddr → SOCKADDR_INET
  | .V4 ip port =>
    { SOCKADDR_INET.zeroed with
        si_family := AF_INET
        sin_port := u16_to_be port
        sin_addr := inaddr_from_ipaddr ip }
  | .V6 ip port flowinfo scope_id =>
    { SOCKADDR_INET.zeroed with
        si_family := AF_INET6
        sin6_port := u16_to_be port
        sin6_addr := in6addr_from_ipaddr ip
        sin6_flowinfo := flowinfo
        sin6_scope_id := scope_id }

/-- `try_socketaddr_from_inet_sockaddr` (windows.rs): match on
`*addr.si_family() as i32`; `AF_INET` rebuilds a `SocketAddrV4` from
`sin_addr` and `u16::from_be(sin_port)`; `AF_INET6` rebuilds a `SocketAddrV6`
from `sin6_addr`, `u16::from_be(sin6_port)`, `sin6_flowinfo` and
`sin6_scope_id`; any other family is `Err(Error::UnknownAddressFamily)`. -/
def try_socketaddr_from_inet_sockaddr (addr : SOCKADDR_INET) :
    Except Error SocketAddr :=
  if addr.si_family = AF_INET then
    .ok (.V4 (ipaddr_from_inaddr addr.sin_addr) (u16_from_be addr.sin_port))
  else if addr.si_family = AF_INET6 then
    .ok (.V6 (ipaddr_from_in6addr addr.sin6_addr) (u16_from_be addr.sin6_port)
      addr.sin6_flowinfo addr.sin6_scope_id)
  else
    .error (.UnknownAddressFamily addr.si_family)

/-- Representability of a `SocketAddr` value in the model: every octet is a
byte, the port is a `u16`, and flowinfo and scope-id are `u32`s — the ranges
the Rust types enforce by construction. -/
def ValidSocketAddr : SocketAddr → Prop
  | .V4 ip port =>
    ip.o0 < 256 ∧ ip.o1 < 256 ∧ ip.o2 < 256 ∧ ip.o3 < 256 ∧ port < 65536
  | .V6 ip port flowinfo scope_id =>
    (∀ b ∈ ip.octets, b < 256) ∧ port < 65536 ∧ flowinfo < 4294967296
      ∧ scope_id < 4294967296

instance (a : SocketAddr) : Decidable (ValidSocketAddr a) :=
  match a with
  | .V4 ip port =>
    inferInstanceAs (Decidable (ip.o0 < 256 ∧ ip.o1 < 256 ∧ ip.o2 < 256
      ∧ ip.o3 < 256 ∧ port < 65536))
  | .V6 ip port flowinfo scope_id =>
    inferInstanceAs (Decidable ((∀ b ∈ ip.octets, b < 256) ∧ port < 65536
      ∧ flowinfo < 4294967296 ∧ scope_id < 4294967296))

/-- `winapi MIB_IPINTERFACE_ROW`, restricted to the two fields the code reads
in the `wait_for_interfaces` callback: `Family` (a `u16` address family) and
`InterfaceLuid.Value` (a `u64` interface identifier). -/
structure MIB_IPINTERFACE_ROW where
  Family : Nat
  InterfaceLuidValue : Nat
deriving DecidableEq

/-- `ip_interface_entry_exists` (windows.rs): `get_ip_interface_entry` is an
external OS query (`GetIpInterfaceEntry`), passed in as the oracle `get`
returning `Ok(())` (the row itself is discarded) or a raw OS error code.
`Ok(_)` means the row exists; `ERROR_NOT_FOUND` means it does not; any other
error propagates. -/
def ip_interface_entry_exists (get : Nat → Nat → Except Nat Unit)
    (family : Nat) (luid : Nat) : Except Nat Bool :=
  match get family luid with
  | .ok _ => .ok true
  | .error e => if e = ERROR_NOT_FOUND then .ok false else .error e

/-- The mutable state captured by the closure passed to
`notify_ip_interface_change` inside `wait_for_interfaces`: the two
`found_ipv4`/`found_ipv6` flags and whether the oneshot sender is still
present (`tx : Option Sender`, modelled by a `Bool` that is `true` while the
sender has not been taken). -/
structure CbState where
  found_ipv4 : Bool
  found_ipv6 : Bool
  tx : Bool
deriving DecidableEq

/-- The body of the closure registered by `wait_for_interfaces`, as one event
delivery: given the requested `luid`, the captured state, the event row and
the notification type, it returns the updated captured state and whether this
invocation fired the oneshot completion signal (`tx.take()` succeeded and
`tx.send(())` was executed). -/
def wfi_callback (luid : Nat) (st : CbState) (row : MIB_IPINTERFACE_ROW)
    (notification_type : Nat) : CbState × Bool :=
  if st.found_ipv4 && st.found_ipv6 then (st, false)
  else if notification_type ≠ MibAddInstance then (st, false)
  else if row.InterfaceLuidValue ≠ luid then (st, false)
  else
    let st1 :=
      if row.Family = AF_INET then { st with found_ipv4 := true }
      else if row.Family = AF_INET6 then { st with found_ipv6 := true }
      else st
    if st1.found_ipv4 && st1.found_ipv6 then
      if st1.tx then ({ st1 with tx := false }, true) else (st1, false)
    else (st1, false)

/-- Delivery of a sequence of OS notification events to the registered
callback: folds `wfi_callback` over the events and counts how many
deliveries fired the completion signal.  The suspended `rx.await` in
`wait_for_interfaces` completes exactly when some delivery fires. -/
def processEvents (luid : Nat) : CbState → List (MIB_IPINTERFACE_ROW × Nat) →
    CbState × Nat
  | st, [] => (st, 0)
  | st, (row, notification_type) :: rest =>
    let r := wfi_callback luid st row notification_type
    let s := processEvents luid r.1 rest
    (s.1, (if r.2 then 1 else 0) + s.2)

/-- One externally visible OS call made by `wait_for_interfaces`, in program
order: the `NotifyIpInterfaceChange` registration performed by
`notify_ip_interface_change`, or one `GetIpInterfaceEntry` existence query
performed by `ip_interface_entry_exists`. -/
inductive OsCall where
  | registerNotify (family : Nat)
  | queryExists (family : Nat) (luid : Nat)
deriving DecidableEq

/-- Whether an external call is one of the `GetIpInterfaceEntry` existence
queries (as opposed to the `NotifyIpInterfaceChange` registration). -/
def OsCall.isQuery : OsCall → Bool
  | .queryExists _ _ => true
  | .registerNotify _ => false

/-- How `wait_for_interfaces` leaves its caller, up to its sole suspension
point: aborted with an OS error from registration or a query, returned
`Ok(())` without suspending, or suspended on `rx.await` with the callback
still registered and its captured state as shown. -/
inductive WfiOutcome where
  | errored (e : Nat)
  | immediate
  | suspended (st : CbState)
deriving DecidableEq

/-- `wait_for_interfaces` (windows.rs), up to its suspension point, with its
two external dependencies as oracles: `reg` is the outcome of the
`NotifyIpInterfaceChange` registration and `get` the outcome of each
`GetIpInterfaceEntry` query.  Mirrors the source exactly: `found_ipv4` and
`found_ipv6` start as `if ipv4 { false } else { true }` (resp. v6) and seed
the callback state; registration happens first (`?` aborts on error); then
the short-circuit condition
`(!ipv4 || exists(AF_INET)?) && (!ipv6 || exists(AF_INET6)?)` is evaluated,
returning `Ok` immediately when it is true, and otherwise the function
suspends on `rx.await`.  The second component is the trace of external calls
in the order the code issues them. -/
def wait_for_interfaces (reg : Except Nat Unit)
    (get : Nat → Nat → Except Nat Unit) (luid : Nat) (ipv4 ipv6 : Bool) :
    WfiOutcome × List OsCall :=
  let found_ipv4 := if ipv4 then false else true
  let found_ipv6 := if ipv6 then false else true
  match reg with
  | .error e => (.errored e, [.registerNotify AF_UNSPEC])
  | .ok _ =>
    let st0 : CbState := ⟨found_ipv4, found_ipv6, true⟩
    if ipv4 then
      match ip_interface_entry_exists get AF_INET luid with
      | .error e =>
        (.errored e, [.registerNotify AF_UNSPEC, .queryExists AF_INET luid])
      | .ok true =>
        if ipv6 then
          match ip_interface_entry_exists get AF_INET6 luid with
          | .error e =>
            (.errored e, [.registerNotify AF_UNSPEC,
              .queryExists AF_INET luid, .queryExists AF_INET6 luid])
          | .ok true =>
            (.immediate, [.registerNotify AF_UNSPEC,
              .queryExists AF_INET luid, .queryExists AF_INET6 luid])
          | .ok false =>
            (.suspended st0, [.registerNotify AF_UNSPEC,
              .queryExists AF_INET luid, .queryExists AF_INET6 luid])
        else
          (.immediate, [.registerNotify AF_UNSPEC, .queryExists AF_INET luid])
      | .ok false =>
        (.suspended st0, [.registerNotify AF_UNSPEC,
          .queryExists AF_INET luid])
    else
      if ipv6 then
        match ip_interface_entry_exists get AF_INET6 luid with
        | .error e =>
          (.errored e, [.registerNotify AF_UNSPEC,
            .queryExists AF_INET6 luid])
        | .ok true =>
          (.immediate, [.registerNotify AF_UNSPEC, .queryExists AF_INET6 luid])
        | .ok false =>
          (.suspended st0, [.registerNotify AF_UNSPEC,
            .queryExists AF_INET6 luid])
      else
        (.immediate, [.registerNotify AF_UNSPEC])

end TunnelWindows

namespace WireguardNt

/-- `Error` (wireguard_nt.rs): dll loading failure or adapter creation
failure, each wrapping the raw `io::Error` OS code. -/
inductive Error where
  | DllError (e : Nat)
  | CreateTunnelDeviceError (e : Nat)
deriving DecidableEq

/-- `WgNtDll` (wireguard_nt.rs): the loaded `wireguard.dll` with its three
resolved entry points.  In the model the binding is identified by `loadId`,
the number of successful physical library loads that preceded it — two
bindings are the same loaded library iff their `loadId`s are equal. -/
structure WgNtDll where
  loadId : Nat
deriving DecidableEq

/-- The process-wide cache state behind `WG_NT_DLL : Mutex<Option<Arc<WgNtDll>>>`,
together with an instrumentation counter: `loads` is the number of successful
physical library loads (`WgNtDll::new` completions) performed so far.  The
`lazy_static` initial state is `⟨none, 0⟩`. -/
structure DllCacheState where
  cache : Option WgNtDll
  loads : Nat
deriving DecidableEq

/-- `load_wg_nt_dll` (wireguard_nt.rs): take the `WG_NT_DLL` lock; if the
cache holds a binding, return a clone of it and leave the state untouched;
otherwise run `WgNtDll::new(resource_dir)` — modelled by the oracle `newDll`
giving its outcome for a given path — and on success store the new binding in
the cache and return it, on failure return `Error::DllError`.  The whole
check-then-load-then-store sequence runs under the single lock, so a
sequence of calls is the faithful model of any interleaving. -/
def load_wg_nt_dll (newDll : String → Except Nat Unit) (resource_dir : String)
    (s : DllCacheState) : Except Error WgNtDll × DllCacheState :=
  match s.cache with
  | some dll => (.ok dll, s)
  | none =>
    match newDll resource_dir with
    | .error e => (.error (.DllError e), s)
    | .ok _ =>
      let new_dll : WgNtDll := ⟨s.loads⟩
      (.ok new_dll, ⟨some new_dll, s.loads + 1⟩)

/-- A sequence of `load_wg_nt_dll` calls (one per requested resource
directory), returning every call's result and the final cache state. -/
def runLoads (newDll : String → Except Nat Unit) :
    List String → DllCacheState → List (Except Error WgNtDll) × DllCacheState
  | [], s => ([], s)
  | d :: ds, s =>
    let r := load_wg_nt_dll newDll d s
    let rest := runLoads newDll ds r.2
    (r.1 :: rest.1, rest.2)

/-- The successfully returned bindings of a sequence of load results. -/
def okBindings (rs : List (Except Error WgNtDll)) : List WgNtDll :=
  rs.filterMap fun r => match r with | .ok d => some d | .error _ => none

/-- One call into the loaded driver library's adapter ABI, in the order the
code issues them: `WireGuardCreateAdapter`, `WireGuardDeleteAdapter` on a
handle, or `WireGuardFreeAdapter` on a handle. -/
inductive DriverCall where
  | createAdapter
  | deleteAdapter (handle : Nat)
  | freeAdapter (handle : Nat)
deriving DecidableEq

/-- Oracle for the external driver ABI: the outcome of
`WireGuardCreateAdapter` (a native handle and the reboot-required flag, or an
OS error code for a null return) and of `WireGuardDeleteAdapter` per handle
(the reboot-required flag, or an OS error code for a zero return).
`WireGuardFreeAdapter` is infallible and returns nothing. -/
structure DriverOracle where
  createResult : Except Nat (Nat × Bool)
  deleteResult : Nat → Except Nat Bool

/-- `WgNtDll::create_adapter` (wireguard_nt.rs): one `func_create` call;
null handle becomes `Err(last_os_error)`. -/
def WgNtDll.create_adapter (o : DriverOracle) :
    Except Nat (Nat × Bool) × List DriverCall :=
  (o.createResult, [.createAdapter])

/-- `WgNtDll::delete_adapter` (wireguard_nt.rs): one `func_delete` call on
the handle; zero result becomes `Err(last_os_error)`. -/
def WgNtDll.delete_adapter (o : DriverOracle) (adapter : Nat) :
    Except Nat Bool × List DriverCall :=
  (o.deleteResult adapter, [.deleteAdapter adapter])

/-- `WgNtDll::free_adapter` (wireguard_nt.rs): one `func_free` call on the
handle; infallible. -/
def WgNtDll.free_adapter (adapter : Nat) : List DriverCall :=
  [.freeAdapter adapter]

/-- `WgNtAdapter` (wireguard_nt.rs): the owning wrapper around one native
adapter handle.  The `dll_handle : Arc<WgNtDll>` field only keeps the library
resident and selects which function pointers are called; the driver oracle
stands for it in the model, so the model keeps just the raw handle. -/
structure WgNtAdapter where
  handle : Nat
deriving DecidableEq

/-- `impl Drop for WgNtAdapter` (wireguard_nt.rs): dropping the value calls
`free_adapter(self.handle)`. -/
def WgNtAdapter.drop (a : WgNtAdapter) : List DriverCall :=
  WgNtDll.free_adapter a.handle

/-- `WgNtAdapter::create` (wireguard_nt.rs): delegates to
`dll_handle.create_adapter` and packages the returned native handle. -/
def WgNtAdapter.create (o : DriverOracle) :
    Except Nat (WgNtAdapter × Bool) × List DriverCall :=
  match WgNtDll.create_adapter o with
  | (.ok (handle, restart_required), t) => (.ok (⟨handle⟩, restart_required), t)
  | (.error e, t) => (.error e, t)

/-- `WgNtAdapter::delete` (wireguard_nt.rs): `fn delete(self)` calls
`self.dll_handle.delete_adapter(self.handle)` and returns its result.  The
function consumes `self` and contains no `mem::forget`, so when it returns —
on the success and on the error path alike — `self` goes out of scope and
`Drop for WgNtAdapter` runs, issuing `free_adapter(self.handle)` after the
`delete_adapter` call.  The trace records both calls in that order. -/
def WgNtAdapter.delete (o : DriverOracle) (a : WgNtAdapter) :
    Except Nat Bool × List DriverCall :=
  let r := WgNtDll.delete_adapter o a.handle
  (r.1, r.2 ++ WgNtAdapter.drop a)

/-- `WgNtTunnel` (wireguard_nt.rs): `pub struct WgNtTunnel {}` — a structure
with no fields; in this snapshot the returned tunnel value holds no adapter
and no other resource. -/
structure WgNtTunnel where
deriving DecidableEq

/-- `WgNtTunnel::start_tunnel` (wireguard_nt.rs): load (or fetch from the
cache) the dll via `load_wg_nt_dll`, create the adapter via
`WgNtAdapter::create` (mapping failure to `CreateTunnelDeviceError`), log a
warning if `reboot_required`, and return `Ok(WgNtTunnel {})`.  The local
`device` binding is never moved into the returned value, so at the end of the
function it goes out of scope and `Drop for WgNtAdapter` frees it — the
returned trace therefore ends with that `freeAdapter` call, which the code
issues before `start_tunnel` returns.  The unused `config`, `log_path` and
`routes` parameters are omitted. -/
def WgNtTunnel.start_tunnel (newDll : String → Except Nat Unit)
    (o : DriverOracle) (resource_dir : String) (s : DllCacheState) :
    Except Error WgNtTunnel × DllCacheState × List DriverCall :=
  match load_wg_nt_dll newDll resource_dir s with
  | (.error e, s1) => (.error e, s1, [])
  | (.ok _dll, s1) =>
    match WgNtAdapter.create o with
    | (.error e, t) => (.error (.CreateTunnelDeviceError e), s1, t)
    | (.ok (device, _reboot_required), t) =>
      (.ok ⟨⟩, s1, t ++ WgNtAdapter.drop device)

end WireguardNt

open TunnelWindows WireguardNt

theorem u16_from_be_u16_to_be (p : Nat) (hp : p < 65536) :
    u16_from_be (u16_to_be p) = p := by
  unfold u16_to_be u16_from_be
  have hy : p / 256 % 256 = p / 256 := Nat.mod_eq_of_lt (by omega)
  rw [hy]
  have hm : (p % 256 * 256 + p / 256) % 256 = p / 256 := by omega
  have hdv : (p % 256 * 256 + p / 256) / 256 = p % 256 := by omega
  rw [hm, hdv]
  omega

theorem ipaddr_from_inaddr_from_ipaddr (ip : Ipv4Addr) (h0 : ip.o0 < 256)
    (h1 : ip.o1 < 256) (h2 : ip.o2 < 256) (h3 : ip.o3 < 256) :
    ipaddr_from_inaddr (inaddr_from_ipaddr ip) = ip := by
  obtain ⟨o0, o1, o2, o3⟩ := ip
  have b0 : o0 < 256 := h0
  have b1 : o1 < 256 := h1
  have b2 : o2 < 256 := h2
  have b3 : o3 < 256 := h3
  clear h0 h1 h2 h3
  show Ipv4Addr.ofU32
      (u32_to_be (o0 + 256 * o1 + 65536 * o2 + 16777216 * o3)) = ⟨o0, o1, o2, o3⟩
  have hswap : u32_to_be (o0 + 256 * o1 + 65536 * o2 + 16777216 * o3)
      = o3 + 256 * o2 + 65536 * o1 + 16777216 * o0 := by
    unfold u32_to_be
    have hs0 : (o0 + 256 * o1 + 65536 * o2 + 16777216 * o3) % 256 = o0 := by
      omega
    have hs1 : (o0 + 256 * o1 + 65536 * o2 + 16777216 * o3) / 256 % 256 = o1 := by
      omega
    have hs2 : (o0 + 256 * o1 + 65536 * o2 + 16777216 * o3) / 65536 % 256 = o2 := by
      omega
    have hs3 : (o0 + 256 * o1 + 65536 * o2 + 16777216 * o3) / 16777216 % 256 = o3 := by
      omega
    rw [hs0, hs1, hs2, hs3]
    ring
  rw [hswap]
  unfold Ipv4Addr.ofU32
  simp only [Ipv4Addr.mk.injEq]
  refine ⟨?_, ?_, ?_, ?_⟩ <;> omega

/-- C4: for every representable socket address `a` — IPv4 or IPv6, including
non-zero scope-id and flow-info and boundary ports — decoding the encoding of
`a` returns `a`:
`try_socketaddr_from_inet_sockaddr (inet_sockaddr_from_socketaddr a) = Ok a`. -/
theorem c4_decode_encode_roundtrip (a : SocketAddr) (h : ValidSocketAddr a) :
    try_socketaddr_from_inet_sockaddr (inet_sockaddr_from_socketaddr a)
      = .ok a := by
  cases a with
  | V4 ip port =>
    obtain ⟨h0, h1, h2, h3, hp⟩ := h
    have e : try_socketaddr_from_inet_sockaddr
        (inet_sockaddr_from_socketaddr (.V4 ip port))
        = .ok (.V4 (ipaddr_from_inaddr (inaddr_from_ipaddr ip))
            (u16_from_be (u16_to_be port))) := rfl
    rw [e, ipaddr_from_inaddr_from_ipaddr ip h0 h1 h2 h3,
      u16_from_be_u16_to_be port hp]
  | V6 ip port flowinfo scope_id =>
    obtain ⟨_hoct, hp, _hfl, _hsc⟩ := h
    have e : try_socketaddr_from_inet_sockaddr
        (inet_sockaddr_from_socketaddr (.V6 ip port flowinfo scope_id))
        = .ok (.V6 ip (u16_from_be (u16_to_be port)) flowinfo scope_id) := rfl
    rw [e, u16_from_be_u16_to_be port hp]

/-- C4 witness: a concrete IPv6 socket address with non-zero flow-info and
scope-id and boundary port 65535 is valid and round-trips. -/
theorem c4_decode_encode_roundtrip_witness :
    ValidSocketAddr
        (.V6 ⟨[0, 1, 2, 3, 4, 5, 6, 7, 8, 9, 250, 251, 252, 253, 254, 255]⟩
          65535 305419896 33) ∧
      try_socketaddr_from_inet_sockaddr (inet_sockaddr_from_socketaddr
        (.V6 ⟨[0, 1, 2, 3, 4, 5, 6, 7, 8, 9, 250, 251, 252, 253, 254, 255]⟩
          65535 305419896 33))
        = .ok (.V6 ⟨[0, 1, 2, 3, 4, 5, 6, 7, 8, 9, 250, 251, 252, 253, 254,
            255]⟩ 65535 305419896 33) :=
  ⟨by decide, c4_decode_encode_roundtrip _ (by decide)⟩

/-- C5: decoding a native socket-address structure fails exactly when the
family discriminant is neither `AF_INET` nor `AF_INET6`, and in that case the
error is `UnknownAddressFamily` carrying that very discriminant. -/
theorem c5_decode_fails_iff_unknown_family (addr : SOCKADDR_INET) :
    ((∃ e, try_socketaddr_from_inet_sockaddr addr = .error e) ↔
      addr.si_family ≠ AF_INET ∧ addr.si_family ≠ AF_INET6) ∧
    (addr.si_family ≠ AF_INET → addr.si_family ≠ AF_INET6 →
      try_socketaddr_from_inet_sockaddr addr
        = .error (.UnknownAddressFamily addr.si_family)) := by
  unfold try_socketaddr_from_inet_sockaddr
  by_cases h4 : addr.si_family = AF_INET
  · simp [h4]
  · by_cases h6 : addr.si_family = AF_INET6
    · simp [h4, h6, AF_INET, AF_INET6]
    · simp [h4, h6]

/-- C5 witness: a structure with family tag 99 decodes to
`UnknownAddressFamily 99`. -/
theorem c5_decode_fails_iff_unknown_family_witness :
    try_socketaddr_from_inet_sockaddr
        ⟨99, 0, ⟨0, 0, 0, 0⟩, 0, ⟨List.replicate 16 0⟩, 0, 0⟩
      = .error (.UnknownAddressFamily 99) :=
  (c5_decode_fails_iff_unknown_family
    ⟨99, 0, ⟨0, 0, 0, 0⟩, 0, ⟨List.replicate 16 0⟩, 0, 0⟩).2
    (by decide) (by decide)

/-- C1 counterexample: the claim "no free call is subsequently issued for a
handle whose delete succeeded" is false at a concrete input.  With a driver
whose delete of handle 7 succeeds, `WgNtAdapter::delete ⟨7⟩` returns
`Ok(false)` and its driver-call trace is
`[deleteAdapter 7, freeAdapter 7]`: the consumed `self` is dropped at the end
of `delete` (there is no `mem::forget`), so `Drop for WgNtAdapter` issues
`free_adapter(7)` right after the successful `delete_adapter(7)`. -/
theorem c1_successful_delete_is_followed_by_free :
    (WgNtAdapter.delete ⟨.ok (7, false), fun _ => .ok false⟩ ⟨7⟩).1
        = .ok false ∧
      (WgNtAdapter.delete ⟨.ok (7, false), fun _ => .ok false⟩ ⟨7⟩).2
        = [.deleteAdapter 7, .freeAdapter 7] :=
  ⟨rfl, rfl⟩

/-- C1 (amended): for every adapter handle on which `delete` succeeds, the
driver sees exactly one `delete_adapter` call on that handle followed by
exactly one `free_adapter` call on the same handle — the free is issued by
the `Drop` of the value consumed by `delete`, not suppressed as the original
claim states. -/
theorem c1_amended_delete_then_free_exactly_once (o : DriverOracle)
    (a : WgNtAdapter) (reboot_required : Bool)
    (_h : (WgNtAdapter.delete o a).1 = .ok reboot_required) :
    (WgNtAdapter.delete o a).2
      = [.deleteAdapter a.handle, .freeAdapter a.handle] :=
  rfl

/-- C1 witness: the amended statement at the concrete successful delete of
handle 7. -/
theorem c1_amended_delete_then_free_exactly_once_witness :
    (WgNtAdapter.delete ⟨.ok (7, false), fun _ => .ok false⟩ ⟨7⟩).2
      = [.deleteAdapter 7, .freeAdapter 7] :=
  c1_amended_delete_then_free_exactly_once
    ⟨.ok (7, false), fun _ => .ok false⟩ ⟨7⟩ false rfl

/-- C2 (divergence witness): evaluating `start_tunnel` at a concrete input on
which the dll load and the adapter creation succeed.  The call returns
`Ok(WgNtTunnel {})` — a value with no fields, owning no adapter — and the
trace of driver calls issued *inside* `start_tunnel` is
`[createAdapter, freeAdapter 7]`: the local `device` is dropped at the end of
the function, so the adapter's native resource is released via
`WireGuardFreeAdapter` before the `Tunnel` value is ever returned to the
caller, contradicting the claim that the tunnel owns the adapter and that the
release happens only when the tunnel's scope ends. -/
theorem c2_adapter_freed_before_tunnel_returned :
    WgNtTunnel.start_tunnel (fun _ => .ok ())
        ⟨.ok (7, false), fun _ => .ok false⟩ "resource_dir" ⟨none, 0⟩
      = (.ok ⟨⟩, ⟨some ⟨0⟩, 1⟩, [.createAdapter, .freeAdapter 7]) :=
  rfl

/-- C10: once the process-wide cache holds a binding, every later
`load_wg_nt_dll` call returns that cached binding unchanged, for every
library-path argument and for every behavior of the filesystem loader — the
`newDll` oracle is never consulted (the result is the same even for a loader
that would fail), no load is performed (`loads` is unchanged), and the
resource-directory argument is ignored. -/
theorem c10_cached_binding_returned_regardless_of_path
    (newDll : String → Except Nat Unit) (resource_dir : String)
    (s : DllCacheState) (dll : WgNtDll) (h : s.cache = some dll) :
    load_wg_nt_dll newDll resource_dir s = (.ok dll, s) := by
  unfold load_wg_nt_dll
  rw [h]

/-- C10 witness: a cache already holding the binding of load 0 answers a call
with a different path, and with a filesystem on which any load would fail,
with that same binding and an unchanged state. -/
theorem c10_cached_binding_returned_regardless_of_path_witness :
    load_wg_nt_dll (fun _ => .error 2) "different_dir" ⟨some ⟨0⟩, 1⟩
      = (.ok ⟨0⟩, ⟨some ⟨0⟩, 1⟩) :=
  c10_cached_binding_returned_regardless_of_path (fun _ => .error 2)
    "different_dir" ⟨some ⟨0⟩, 1⟩ ⟨0⟩ rfl

theorem okBindings_cons_ok (d : WgNtDll)
    (rs : List (Except WireguardNt.Error WgNtDll)) :
    okBindings (.ok d :: rs) = d :: okBindings rs :=
  rfl

theorem okBindings_cons_error (e : WireguardNt.Error)
    (rs : List (Except WireguardNt.Error WgNtDll)) :
    okBindings (.error e :: rs) = okBindings rs :=
  rfl

theorem runLoads_single_load_invariant (newDll : String → Except Nat Unit)
    (dirs : List String) (s : DllCacheState) (hl : s.loads ≤ 1)
    (hc : ∀ d, s.cache = some d → d = ⟨0⟩ ∧ s.loads = 1)
    (hn : s.cache = none → s.loads = 0) :
    (runLoads newDll dirs s).2.loads ≤ 1 ∧
      ∀ d ∈ okBindings (runLoads newDll dirs s).1, d = ⟨0⟩ := by
  induction dirs generalizing s with
  | nil =>
    exact ⟨hl, by simp [runLoads, okBindings]⟩
  | cons dir rest ih =>
    match hs : s.cache with
    | some dll =>
      have hd := hc dll hs
      have step := ih s hl hc hn
      simp only [runLoads, load_wg_nt_dll, hs] at step ⊢
      refine ⟨step.1, ?_⟩
      rw [okBindings_cons_ok]
      intro d hdm
      rcases List.mem_cons.mp hdm with h | h
      · rw [h, hd.1]
      · exact step.2 d h
    | none =>
      have h0 := hn hs
      match he : newDll dir with
      | .error e =>
        have step := ih s hl hc hn
        simp only [runLoads, load_wg_nt_dll, hs, he] at step ⊢
        refine ⟨step.1, ?_⟩
        rw [okBindings_cons_error]
        exact step.2
      | .ok u =>
        have step := ih ⟨some ⟨s.loads⟩, s.loads + 1⟩ (by simp [h0])
          (by intro d hd
              simp at hd
              subst hd
              simp [h0])
          (by intro hcontra; simp at hcontra)
        simp only [runLoads, load_wg_nt_dll, hs, he] at step ⊢
        refine ⟨step.1, ?_⟩
        rw [okBindings_cons_ok]
        intro d hdm
        rcases List.mem_cons.mp hdm with h | h
        · rw [h, h0]
        · exact step.2 d h

/-- C6: over every sequence of `load_wg_nt_dll` calls starting from the
initial empty process-wide cache, at most one physical library load is ever
performed (the `loads` counter of successful `WgNtDll::new` completions never
exceeds 1), and every call that returns a binding returns the binding created
by that single first successful load (identity `loadId = 0`) — later calls
share the cached binding instead of loading again. -/
theorem c6_at_most_one_library_load (newDll : String → Except Nat Unit)
    (dirs : List String) :
    (runLoads newDll dirs ⟨none, 0⟩).2.loads ≤ 1 ∧
      ∀ d ∈ okBindings (runLoads newDll dirs ⟨none, 0⟩).1, d = ⟨0⟩ :=
  runLoads_single_load_invariant newDll dirs ⟨none, 0⟩ (Nat.zero_le 1)
    (by intro d hd; simp at hd) (by intro _h; rfl)

/-- C6 witness: two calls with the same path after an initial success — the
final load count is at most one, and the binding returned to the second
caller is the binding of load 0. -/
theorem c6_at_most_one_library_load_witness :
    (runLoads (fun _ => .ok ()) ["dir", "dir"] ⟨none, 0⟩).2.loads ≤ 1 ∧
      (⟨0⟩ : WgNtDll) = ⟨0⟩ :=
  ⟨(c6_at_most_one_library_load (fun _ => .ok ()) ["dir", "dir"]).1,
    (c6_at_most_one_library_load (fun _ => .ok ()) ["dir", "dir"]).2
      ⟨0⟩ (by decide)⟩

/-- C7: if the registration succeeds and, for every requested address family,
the direct existence query reports that the interface row already exists —
families that are not requested are short-circuited away by `!ipv4 ||` /
`!ipv6 ||`, so the all-unrequested case is covered with no query at all —
then `wait_for_interfaces` returns `Ok(())` at once, never reaching its
suspension point. -/
theorem c7_returns_immediately_when_rows_exist (reg : Except Nat Unit)
    (get : Nat → Nat → Except Nat Unit) (luid : Nat) (ipv4 ipv6 : Bool)
    (hreg : reg = .ok ())
    (h4 : ipv4 = true → ip_interface_entry_exists get AF_INET luid = .ok true)
    (h6 : ipv6 = true → ip_interface_entry_exists get AF_INET6 luid = .ok true) :
    (wait_for_interfaces reg get luid ipv4 ipv6).1 = .immediate := by
  subst hreg
  cases ipv4 with
  | false =>
    cases ipv6 with
    | false => rfl
    | true => simp [wait_for_interfaces, h6 rfl]
  | true =>
    cases ipv6 with
    | false => simp [wait_for_interfaces, h4 rfl]
    | true => simp [wait_for_interfaces, h4 rfl, h6 rfl]

/-- C7 witness: with IPv4 requested, IPv6 not requested, and an OS on which
every queried row exists, the wait returns immediately. -/
theorem c7_returns_immediately_when_rows_exist_witness :
    (wait_for_interfaces (.ok ()) (fun _ _ => .ok ()) 1 true false).1
      = .immediate :=
  c7_returns_immediately_when_rows_exist (.ok ()) (fun _ _ => .ok ()) 1 true
    false rfl (fun _ => rfl) (fun hc => nomatch hc)

/-- C9: in every execution of `wait_for_interfaces` — whatever the
registration outcome, the OS query results, the identifier and the requested
families — the very first external call is the `NotifyIpInterfaceChange`
registration (with family `AF_UNSPEC`), and every other external call in the
trace is a `GetIpInterfaceEntry` existence query; the subscription is
therefore established strictly before any existence query is issued. -/
theorem c9_subscription_established_before_query (reg : Except Nat Unit)
    (get : Nat → Nat → Except Nat Unit) (luid : Nat) (ipv4 ipv6 : Bool) :
    (wait_for_interfaces reg get luid ipv4 ipv6).2.head?
        = some (.registerNotify AF_UNSPEC) ∧
      ((wait_for_interfaces reg get luid ipv4 ipv6).2.tail.all
        OsCall.isQuery) = true := by
  unfold wait_for_interfaces
  cases reg with
  | error e => exact ⟨rfl, rfl⟩
  | ok u =>
    cases ipv4 with
    | false =>
      cases ipv6 with
      | false => exact ⟨rfl, rfl⟩
      | true =>
        rcases h6 : ip_interface_entry_exists get AF_INET6 luid with e6 | b6
        · simp only [h6]
          exact ⟨rfl, rfl⟩
        · cases b6 <;> simp only [h6] <;> exact ⟨rfl, rfl⟩
    | true =>
      rcases h4 : ip_interface_entry_exists get AF_INET luid with e4 | b4
      · simp only [h4]
        exact ⟨rfl, rfl⟩
      · cases b4 with
        | false =>
          simp only [h4]
          exact ⟨rfl, rfl⟩
        | true =>
          cases ipv6 with
          | false =>
            simp only [h4]
            exact ⟨rfl, rfl⟩
          | true =>
            rcases h6 : ip_interface_entry_exists get AF_INET6 luid with e6 | b6
            · simp only [h4, h6]
              exact ⟨rfl, rfl⟩
            · cases b6 <;> simp only [h4, h6] <;> exact ⟨rfl, rfl⟩

theorem wfi_callback_tx_mono (luid : Nat) (st : CbState)
    (row : MIB_IPINTERFACE_ROW) (t : Nat)
    (h : (wfi_callback luid st row t).1.tx = true) : st.tx = true := by
  simp only [wfi_callback] at h
  split_ifs at h <;> simp_all

theorem wfi_callback_fired_tx (luid : Nat) (st : CbState)
    (row : MIB_IPINTERFACE_ROW) (t : Nat)
    (h : (wfi_callback luid st row t).2 = true) :
    st.tx = true ∧ (wfi_callback luid st row t).1.tx = false := by
  simp only [wfi_callback] at h ⊢
  split_ifs at h ⊢ <;> simp_all

theorem processEvents_fires_le_tx (luid : Nat) (st : CbState)
    (evs : List (MIB_IPINTERFACE_ROW × Nat)) :
    (processEvents luid st evs).2 ≤ if st.tx = true then 1 else 0 := by
  induction evs generalizing st with
  | nil => simp [processEvents]
  | cons ev rest ih =>
    rcases ev with ⟨row, t⟩
    simp only [processEvents]
    by_cases hf : (wfi_callback luid st row t).2 = true
    · obtain ⟨htx, htx2⟩ := wfi_callback_fired_tx luid st row t hf
      have h2 := ih (wfi_callback luid st row t).1
      rw [htx2] at h2
      simp only [Bool.false_eq_true, if_false] at h2
      simp only [hf, if_true, htx]
      omega
    · have hb : (wfi_callback luid st row t).2 = false := by
        revert hf
        cases (wfi_callback luid st row t).2 <;> simp
      have h2 := ih (wfi_callback luid st row t).1
      have hmono : (if (wfi_callback luid st row t).1.tx = true then 1 else 0)
          ≤ (if st.tx = true then (1 : Nat) else 0) := by
        by_cases hres : (wfi_callback luid st row t).1.tx = true
        · rw [if_pos hres, if_pos (wfi_callback_tx_mono luid st row t hres)]
        · rw [if_neg hres]
          split <;> omega
      simp only [hb, Bool.false_eq_true, if_false]
      omega

/-- C8: properties of the callback registered by `wait_for_interfaces`: an
event whose notification type is not `MibAddInstance` leaves the captured
state unchanged and fires nothing; so does an event whose interface
identifier differs from the requested one; once both family flags are set
(all requested families satisfied — unrequested families start satisfied),
every further event is a no-op; the completion signal is fired only in a
state in which both family flags hold; and over any sequence of delivered
events the signal fires at most once. -/
theorem c8_callback_filters_and_fires_once (luid : Nat) :
    (∀ st row t, t ≠ MibAddInstance →
      wfi_callback luid st row t = (st, false)) ∧
    (∀ st row t, row.InterfaceLuidValue ≠ luid →
      wfi_callback luid st row t = (st, false)) ∧
    (∀ st row t, st.found_ipv4 = true → st.found_ipv6 = true →
      wfi_callback luid st row t = (st, false)) ∧
    (∀ st row t, (wfi_callback luid st row t).2 = true →
      (wfi_callback luid st row t).1.found_ipv4 = true ∧
      (wfi_callback luid st row t).1.found_ipv6 = true) ∧
    (∀ st evs, (processEvents luid st evs).2 ≤ 1) := by
  refine ⟨?_, ?_, ?_, ?_, ?_⟩
  · intro st row t ht
    simp only [wfi_callback]
    split_ifs <;> simp_all
  · intro st row t hrow
    simp only [wfi_callback]
    split_ifs <;> simp_all
  · intro st row t h4 h6
    simp [wfi_callback, h4, h6]
  · intro st row t h
    simp only [wfi_callback] at h ⊢
    split_ifs at h ⊢ <;> simp_all
  · intro st evs
    calc (processEvents luid st evs).2
        ≤ if st.tx = true then 1 else 0 := processEvents_fires_le_tx luid st evs
      _ ≤ 1 := by split <;> omega

/-- C8 witness: a `ParameterNotification` event (type 0, not "instance
added") for the matching identifier leaves the waiting state unchanged and
does not fire the signal. -/
theorem c8_callback_filters_and_fires_once_witness :
    wfi_callback 1 ⟨false, false, true⟩ ⟨2, 1⟩ 0
      = (⟨false, false, true⟩, false) :=
  (c8_callback_filters_and_fires_once 1).1 ⟨false, false, true⟩ ⟨2, 1⟩ 0
    (by decide)

/-- C3 (divergence witness): the mixed-observation scenario on which the
claim fails against the code.  Both families are requested for identifier 1;
at the time of the direct query the IPv4 row exists and the IPv6 row does not
(`GetIpInterfaceEntry` answers `Ok` for `AF_INET` and `ERROR_NOT_FOUND` for
`AF_INET6`), so the wait suspends with callback state
`⟨found_ipv4 := false, found_ipv6 := false, tx := true⟩` — the query result
is never merged into the closure's state.  When the IPv6 attachment then
arrives as `MibAddInstance` events (even repeatedly), the callback sets
`found_ipv6` but `found_ipv4` is still `false`, so the completion signal
never fires (fire count 0) and the wait stays suspended forever, although
every requested family has been observed attached at least once. -/
theorem c3_query_satisfied_family_is_lost_and_wait_hangs :
    (wait_for_interfaces (.ok ())
        (fun family _ => if family = AF_INET then .ok ()
          else .error ERROR_NOT_FOUND) 1 true true).1
      = .suspended ⟨false, false, true⟩ ∧
    processEvents 1 ⟨false, false, true⟩
        [(⟨AF_INET6, 1⟩, MibAddInstance), (⟨AF_INET6, 1⟩, MibAddInstance),
          (⟨AF_INET6, 1⟩, MibAddInstance)]
      = (⟨false, true, true⟩, 0) :=
  ⟨rfl, rfl⟩
